import Mathlib

/-!
Verification of the clip-annotation and synthesis pipeline of the
`5th-july-gaa` repository against its natural-language specification.

The Python sources are shallowly embedded: pure string processing is
translated to executable Lean functions on `List Char` / `String`; the
external inference capability (upload, poll, generate) is passed in as an
explicit oracle argument, since the code treats it as an opaque service;
`json.loads` (a library function, not repository code) is likewise passed
in as a parameter; exceptions are modelled with `Option`.
-/

/-- One artifact on disk: its file name and its textual content. -/
structure RawFile where
  name : String
  content : String
deriving DecidableEq, Repr

/- ## Character and string utilities shared by the embedded functions -/

/-- Numeric value of a decimal digit character. -/
def digitVal (c : Char) : Nat := c.toNat - 48

/-- Decimal value of a digit string, most significant digit first. -/
def natOfDigits (ds : List Char) : Nat := ds.foldl (fun a c => 10 * a + digitVal c) 0

/-- Strip a literal prefix from a character list, or fail. -/
def dropPrefixL : List Char → List Char → Option (List Char)
  | [], cs => some cs
  | _ :: _, [] => none
  | p :: ps, c :: cs => if c = p then dropPrefixL ps cs else none

/-- Python's `str.split(sep)` (single-character separator), accumulator form. -/
def pySplitGo (sep : Char) : List Char → List Char → List (List Char)
  | acc, [] => [acc.reverse]
  | acc, c :: r => if c = sep then acc.reverse :: pySplitGo sep [] r else pySplitGo sep (c :: acc) r

/-- Python's `str.split(sep)` for a single-character separator. -/
def pySplit (sep : Char) (cs : List Char) : List (List Char) := pySplitGo sep [] cs

/-- The whitespace characters stripped by Python's `int()` / `str.strip()`
(ASCII subset). -/
def pyIsSpace (c : Char) : Bool :=
  c = ' ' || c = '\t' || c = '\n' || c = '\r' || c = '\x0b' || c = '\x0c'

/-- Strip leading and trailing whitespace. -/
def pyStrip (cs : List Char) : List Char :=
  ((cs.dropWhile pyIsSpace).reverse.dropWhile pyIsSpace).reverse

/-- Digit-part loop of Python's `int()` grammar: after the first digit a
single underscore may appear, but only between two digits. The flag is true
directly after an underscore. -/
def pyDigitsGo : Nat → Bool → List Char → Option Nat
  | acc, false, [] => some acc
  | _, true, [] => none
  | acc, false, '_' :: r => pyDigitsGo acc true r
  | _, true, '_' :: _ => none
  | acc, _, c :: r => if c.isDigit then pyDigitsGo (10 * acc + digitVal c) false r else none

/-- The digit part of Python's `int()` grammar: one digit, then digits with
single underscores between them. -/
def pyDigitsPart : List Char → Option Nat
  | [] => none
  | c :: r => if c.isDigit then pyDigitsGo (digitVal c) false r else none

/-- Python's `int()` on a decimal string: optional surrounding whitespace, an
optional sign, then the digit part; any other input raises (here: `none`). -/
def pythonIntL (cs : List Char) : Option Int :=
  match pyStrip cs with
  | '-' :: r => (pyDigitsPart r).map (fun n => -(n : Int))
  | '+' :: r => (pyDigitsPart r).map (fun n => (n : Int))
  | r => (pyDigitsPart r).map (fun n => (n : Int))

/- ## ClipEnumerator: decoding artifact names -/

/-- Attempt to match the regular expression `clip_(\d+)m(\d+)s\.txt` at the
head of a character list, returning the two captured numbers. Since a digit
can never overlap the literal characters of the pattern, the greedy `\d+` of
the Python regex needs no backtracking and is exactly `takeWhile isDigit`. -/
def parseClipAt (cs : List Char) : Option (Nat × Nat) :=
  match dropPrefixL ['c', 'l', 'i', 'p', '_'] cs with
  | none => none
  | some r1 =>
    match r1.takeWhile Char.isDigit, r1.dropWhile Char.isDigit with
    | [], _ => none
    | ds1, 'm' :: r3 =>
      match r3.takeWhile Char.isDigit, r3.dropWhile Char.isDigit with
      | [], _ => none
      | ds2, 's' :: r5 =>
        if List.isPrefixOf ['.', 't', 'x', 't'] r5 then
          some (natOfDigits ds1, natOfDigits ds2)
        else none
      | _, _ => none
    | _, _ => none

/-- `re.search` of `clip_(\d+)m(\d+)s\.txt`: try the pattern at every
position from the left, taking the first match. -/
def searchClip : List Char → Option (Nat × Nat)
  | [] => none
  | c :: t =>
    match parseClipAt (c :: t) with
    | some v => some v
    | none => searchClip t

/-- The offset in seconds decoded from a file name by the
`clip_(\d+)m(\d+)s\.txt` search, as `minutes*60 + seconds`. -/
def offsetOfName (name : String) : Option Nat :=
  (searchClip name.data).map (fun p => p.1 * 60 + p.2)

/-- Python's `f"{n:02d}"` for a nonnegative `n`: zero-pad to width two. -/
def pad2 (n : Nat) : String := if n < 10 then "0" ++ Nat.repr n else Nat.repr n

/-- One entry of the list built by `collect_all_descriptions`
(`synthesize_kickouts_json.py`): file name, decoded clip start offset,
formatted timestamp and the raw description content. -/
structure DescRecord where
  file : String
  clip_start_time : Nat
  timestamp : String
  content : String
deriving DecidableEq, Repr

/-- Body of `collect_all_descriptions` for a single file: a record when the
name matches `clip_(\d+)m(\d+)s\.txt`, nothing otherwise. -/
def descOfFile (f : RawFile) : Option DescRecord :=
  match searchClip f.name.data with
  | none => none
  | some (m, s) => some ⟨f.name, m * 60 + s, pad2 m ++ ":" ++ pad2 s, f.content⟩

/-- `collect_all_descriptions` (`synthesize_kickouts_json.py`): one record per
file whose name matches the clip pattern, in input order; a file with a
non-matching name contributes nothing and processing continues with the
remaining files. -/
def collect_all_descriptions (files : List RawFile) : List DescRecord :=
  files.filterMap descOfFile

/- ## Stable sorting (Python's list.sort with a key) -/

/-- Insert `x` into a sorted list before the first element with a strictly
larger key, so that folding in from the right is a stable sort. -/
def insSorted {α : Type} (key : α → Int) (x : α) : List α → List α
  | [] => [x]
  | y :: ys => if key y < key x then y :: insSorted key x ys else x :: y :: ys

/-- Stable ascending sort by an integer key. Python's `list.sort(key=...)` is
also a stable ascending sort, and stable sorts agree extensionally. -/
def stableSort {α : Type} (key : α → Int) (l : List α) : List α :=
  l.foldr (insSorted key) []

/- ## The half-label assignment of synthesize_existing_results.py -/

/-- One entry of the list built by `collect_existing_results`
(`synthesize_existing_results.py`). -/
structure ExistingRec where
  file : String
  half : String
  clip_start_time : Nat
  timestamp : String
  content : String
deriving DecidableEq, Repr

/-- Body of `collect_existing_results` for a single file: when the name
matches, the half label is derived purely from the decoded clip start offset
with the fixed 35-minute cutoff. -/
def existingOfFile (f : RawFile) : Option ExistingRec :=
  match searchClip f.name.data with
  | none => none
  | some (m, s) =>
    some ⟨f.name, if m * 60 + s < 35 * 60 then "first_half" else "second_half",
      m * 60 + s, pad2 m ++ ":" ++ pad2 s, f.content⟩

/-- `collect_existing_results` (`synthesize_existing_results.py`): records for
matching files, sorted by clip start time. -/
def collect_existing_results (files : List RawFile) : List ExistingRec :=
  stableSort (fun r => (r.clip_start_time : Int)) (files.filterMap existingOfFile)

/- ## convert_timestamp_to_seconds (synthesize_patterns.py) -/

/-- `convert_timestamp_to_seconds` from `synthesize_patterns.py`: split on a
colon; with exactly two parts that both parse as Python ints, return
`minutes*60 + seconds`; on any other input (wrong part count, unparsable
part) return 0 via the bare `return 0` or the exception handler. -/
def convert_timestamp_to_seconds (timestamp : String) : Int :=
  match pySplit ':' timestamp.data with
  | [x, y] =>
    match pythonIntL x, pythonIntL y with
    | some m, some s => m * 60 + s
    | _, _ => 0
  | _ => 0

/- ## Canonical clip names, for stating the naming-convention claims -/

/-- The character of a decimal digit (meaningful for `d < 10`). -/
def digitOf (d : Nat) : Char := Char.ofNat (48 + d)

/-- A canonical artifact name of the `clip_<MM>m<SS>s.txt` convention with
two-digit zero-padded minutes and seconds. -/
def mkClipName (m s : Nat) : String :=
  String.mk ('c' :: 'l' :: 'i' :: 'p' :: '_' :: digitOf (m / 10) :: digitOf (m % 10) :: 'm' ::
    digitOf (s / 10) :: digitOf (s % 10) :: 's' :: '.' :: 't' :: 'x' :: 't' :: [])

/-- A well-formed artifact used by the concrete witnesses. -/
def demoGoodA : RawFile := ⟨"clip_00m15s.txt", "KICKOUT: NO"⟩

/-- A second well-formed artifact used by the concrete witnesses. -/
def demoGoodB : RawFile := ⟨"clip_00m30s.txt", "KICKOUT: YES"⟩

/-- An artifact whose name does not match the clip naming convention. -/
def demoBad : RawFile := ⟨"notes.txt", "misc"⟩

/-- The existing-results file used by the C10 witness. -/
def demoExistingFile : RawFile := ⟨"clip_40m00s.txt", "KICKOUT: NO"⟩

/-- The record `collect_existing_results` builds from `demoExistingFile`. -/
def demoExistingRec : ExistingRec :=
  ⟨"clip_40m00s.txt", "second_half", 2400, "40:00", "KICKOUT: NO"⟩

/-- First piece of the halftime synthesis prompt text (before the logical
constraints). -/
def halftimePromptA1 : String :=
  "\nYou are analyzing GAA match clips to find EXACTLY 4 events. You have 337 clip descriptions covering timestamps from 00:00 to 84:00.\n\nTASK: Find these 4 timestamps with supporting evidence:\n1. FIRST HALF START\n2. FIRST HALF END  \n3. SECOND HALF START\n4. MATCH END\n\nSEARCH STRATEGY:\nStep 1: Scan ALL clips for these exact phrases (case-insensitive):\n- \x22THROW-IN CEREMONY\x22 \n- \x22referee throwing ball up\x22\n- \x22referee throws ball up\x22\n- \x22ball up between two players\x22\n- \x22center circle\x22 + \x22referee\x22\n\nStep 2: Scan ALL clips for half-ending phrases:\n- \x22players walking off field\x22\n- \x22leaving the pitch\x22\n- \x22final whistle\x22 \n- \x22end of half\x22\n- \x22players departing\x22\n- \x22walking to sidelines\x22\n\nStep 3: Scan ALL clips for match-ending phrases:\n- \x22match concluded\x22\n- \x22players leaving permanently\x22\n- \x22shaking hands\x22\n- \x22final whistle\x22\n- \x22end of match\x22\n\nEVIDENCE RULES:\n- ONLY use clips with explicit ceremony language for half starts\n- ONLY use clips with explicit departure language for half/match ends\n- Ignore vague descriptions like \x22appears to be\x22 or \x22possibly\x22\n- If multiple clips describe same event, pick the one with clearest language\n\nLOGICAL CONSTRAINTS:\n- "

/-- Second piece of the halftime synthesis prompt text (from the ordering
constraint onward). -/
def halftimePromptA2 : String :=
  "First half must start before it ends\n- Second half must start after first half ends\n- Match must end after second half starts\n- Halftime break should be 3-15 minutes\n- Each half should be 15-45 minutes\n\nOUTPUT FORMAT (use exact quotes as evidence):\n\nANALYSIS RESULTS:\n\nFIRST HALF START: [MM:SS]\nEvidence: \x22[exact quote from clip description]\x22\nFile: clip_[timestamp].txt\n\nFIRST HALF END: [MM:SS]  \nEvidence: \x22[exact quote from clip description]\x22\nFile: clip_[timestamp].txt\n\nSECOND HALF START: [MM:SS]\nEvidence: \x22[exact quote from clip description]\x22  \nFile: clip_[timestamp].txt\n\nMATCH END: [MM:SS]\nEvidence: \x22[exact quote from clip description]\x22\nFile: clip_[timestamp].txt\n\nTIMELINE SUMMARY:\nFirst Half Duration: [X] minutes\nHalftime Break: [X] minutes  \nSecond Half Duration: [X] minutes\n\nCRITICAL: Do NOT analyze or interpret. Simply FIND the clips with the clearest evidence and report them. Let the evidence speak for itself.\n\nCLIPS TO SEARCH:\n"

/-- Literal prompt text of synthesize_halftime_patterns
(synthesize_patterns.py), the part before the compiled descriptions. -/
def halftimePromptA : String :=
  halftimePromptA1 ++ halftimePromptA2

/-- Literal prompt text of synthesize_halftime_patterns (synthesize_patterns.py) (segment B). -/
def halftimePromptB : String :=
  "\n"

/-- Literal prompt text of synthesize_kickouts_with_ai (2-synthesize_kickouts.py) (segment A). -/
def kickoutSynthPromptA : String :=
  "\nYou are an expert GAA analyst synthesizing kickout data from "

/-- Literal prompt text of synthesize_kickouts_with_ai (2-synthesize_kickouts.py) (segment B). -/
def kickoutSynthPromptB : String :=
  " clip analyses across both match halves.\n\nTASK: Create a comprehensive GAA kickout timeline with enhanced tactical analysis.\n\nSYNTHESIS GOALS:\n1. Identify all confirmed official kickouts with precise timing\n2. Track possession outcomes and field positioning\n3. Analyze team performance and tactical patterns\n4. Identify momentum shifts and pressure periods\n5. Calculate kickout effectiveness statistics\n\nANALYSIS DATA:\n"

/-- Literal prompt text of synthesize_kickouts_with_ai (2-synthesize_kickouts.py) (segment C). -/
def kickoutSynthPromptC : String :=
  "\n\nSYNTHESIS REQUIREMENTS:\n- Only include confirmed kickouts (KICKOUT: YES with confidence ≥7)\n- Calculate absolute timing precisely (clip start time + exact contact time)\n- Maintain team consistency based on jersey colors\n- Track tactical patterns across both halves\n- Provide comprehensive match statistics\n\nOUTPUT FORMAT (JSON):\n\x7b\n  \x22match_info\x22: \x7b\n    \x22title\x22: \x22GAA Match - Kickout Analysis\x22,\n    \x22description\x22: \x22AI-synthesized kickout timeline with tactical insights\x22,\n    \x22total_kickouts\x22: [number],\n    \x22analysis_method\x22: \x22Enhanced AI video analysis\x22,\n    \x22halves_analyzed\x22: [\x22first_half\x22, \x22second_half\x22]\n  \x7d,\n  \x22kickouts\x22: [\n    \x7b\n      \x22time\x22: [absolute seconds from match start],\n      \x22half\x22: \x22first_half\x22 or \x22second_half\x22,\n      \x22team\x22: \x22Team A\x22 or \x22Team B\x22,\n      \x22confidence\x22: [1-10],\n      \x22trigger\x22: \x22[what caused kickout]\x22,\n      \x22kick_distance\x22: \x22[Short/Medium/Long]\x22,\n      \x22kick_direction\x22: \x22[Left/Center/Right]\x22,\n      \x22possession_won_by\x22: \x22[Team A/Team B/Contested]\x22,\n      \x22possession_location\x22: \x22[field position]\x22,\n      \x22next_action\x22: \x22[what happened after]\x22,\n      \x22tactical_context\x22: \x22[brief description]\x22,\n      \x22exact_contact_time\x22: \x22[precise timing or N/A]\x22,\n      \x22goalkeeper_jersey\x22: \x22[color description]\x22\n    \x7d\n  ],\n  \x22statistics\x22: \x7b\n    \x22total_kickouts\x22: [count],\n    \x22by_half\x22: \x7b\n      \x22first_half\x22: [count],\n      \x22second_half\x22: [count]\n    \x7d,\n    \x22by_team\x22: \x7b\n      \x22Team A\x22: [count],\n      \x22Team B\x22: [count]\n    \x7d,\n    \x22possession_success\x22: \x7b\n      \x22team_a_won_own\x22: [count and percentage],\n      \x22team_b_won_own\x22: [count and percentage],\n      \x22contested\x22: [count]\n    \x7d,\n    \x22kick_analysis\x22: \x7b\n      \x22short_kicks\x22: [count],\n      \x22medium_kicks\x22: [count],\n      \x22long_kicks\x22: [count],\n      \x22left_direction\x22: [count],\n      \x22center_direction\x22: [count],\n      \x22right_direction\x22: [count]\n    \x7d\n  \x7d,\n  \x22tactical_insights\x22: \x7b\n    \x22pressure_periods\x22: [\x22time periods with multiple kickouts\x22],\n    \x22momentum_shifts\x22: [\x22key sequences that changed possession\x22],\n    \x22most_contested_area\x22: \x22[field position]\x22,\n    \x22team_strategies\x22: \x7b\n      \x22Team A\x22: \x22[tactical approach description]\x22,\n      \x22Team B\x22: \x22[tactical approach description]\x22\n    \x7d\n  \x7d,\n  \x22timeline_summary\x22: \x7b\n    \x22first_kickout\x22: \x22[time]s\x22,\n    \x22last_kickout\x22: \x22[time]s\x22,\n    \x22peak_activity_period\x22: \x22[time range with most kickouts]\x22,\n    \x22average_time_between_kickouts\x22: \x22[seconds]\x22\n  \x7d\n\x7d\n\nIMPORTANT:\n- Be precise with timing calculations\n- Only include high-confidence kickouts (≥7)\n- Maintain team identification consistency\n- Provide meaningful tactical insights\n- Calculate accurate statistics\n\nGenerate the complete JSON analysis:\n"

/-- Literal prompt text of synthesize_with_ai (synthesize_existing_results.py) (segment A). -/
def existingSynthPromptA : String :=
  "\nYou are an expert GAA analyst synthesizing "

/-- Literal prompt text of synthesize_with_ai (synthesize_existing_results.py) (segment B). -/
def existingSynthPromptB : String :=
  " confirmed kickout detections.\n\nTASK: Create a comprehensive GAA kickout timeline with tactical analysis.\n\nCONFIRMED KICKOUT DATA:\n"

/-- Literal prompt text of synthesize_with_ai (synthesize_existing_results.py) (segment C). -/
def existingSynthPromptC : String :=
  "\n\nOUTPUT FORMAT (JSON):\n\x7b\n  \x22match_info\x22: \x7b\n    \x22title\x22: \x22GAA Match - Kickout Analysis\x22,\n    \x22description\x22: \x22AI-synthesized kickout timeline from confirmed detections\x22,\n    \x22total_kickouts\x22: "

/-- Literal prompt text of synthesize_with_ai (synthesize_existing_results.py) (segment D). -/
def existingSynthPromptD : String :=
  ",\n    \x22analysis_method\x22: \x22Enhanced AI video analysis\x22,\n    \x22halves_analyzed\x22: [\x22first_half\x22, \x22second_half\x22]\n  \x7d,\n  \x22kickouts\x22: [\n    \x7b\n      \x22time\x22: [absolute seconds from match start],\n      \x22half\x22: \x22first_half\x22 or \x22second_half\x22,\n      \x22team\x22: \x22Team A\x22 or \x22Team B\x22,\n      \x22confidence\x22: [1-10],\n      \x22trigger\x22: \x22[what caused kickout]\x22,\n      \x22kick_distance\x22: \x22[Short/Medium/Long]\x22,\n      \x22kick_direction\x22: \x22[Left/Center/Right]\x22,\n      \x22possession_won_by\x22: \x22[Team A/Team B/Contested]\x22,\n      \x22possession_location\x22: \x22[field position]\x22,\n      \x22next_action\x22: \x22[what happened after]\x22,\n      \x22tactical_context\x22: \x22[brief description]\x22,\n      \x22exact_contact_time\x22: \x22[precise timing or N/A]\x22,\n      \x22goalkeeper_jersey\x22: \x22[color description]\x22\n    \x7d\n  ],\n  \x22statistics\x22: \x7b\n    \x22total_kickouts\x22: "

/-- Literal prompt text of synthesize_with_ai (synthesize_existing_results.py) (segment E). -/
def existingSynthPromptE : String :=
  ",\n    \x22by_half\x22: \x7b\n      \x22first_half\x22: [count],\n      \x22second_half\x22: [count]\n    \x7d,\n    \x22by_team\x22: \x7b\n      \x22Team A\x22: [count],\n      \x22Team B\x22: [count]\n    \x7d,\n    \x22possession_success\x22: \x7b\n      \x22team_a_won_own\x22: [count and percentage],\n      \x22team_b_won_own\x22: [count and percentage],\n      \x22contested\x22: [count]\n    \x7d\n  \x7d,\n  \x22tactical_insights\x22: \x7b\n    \x22pressure_periods\x22: [\x22time periods with multiple kickouts\x22],\n    \x22most_contested_area\x22: \x22[field position]\x22,\n    \x22team_strategies\x22: \x7b\n      \x22Team A\x22: \x22[tactical approach]\x22,\n      \x22Team B\x22: \x22[tactical approach]\x22\n    \x7d\n  \x7d\n\x7d\n\nExtract all kickout data precisely and create comprehensive statistics.\n"

/-- Literal prompt text of analyze_clip_for_kickouts (1-analyze_clips.py) (segment A). -/
def clipAnalysisPromptA : String :=
  "\n        You are an expert GAA analyst watching a 15-second clip from the "

/-- Literal prompt text of analyze_clip_for_kickouts (1-analyze_clips.py) (segment B). -/
def clipAnalysisPromptB : String :=
  " at "

/-- Literal prompt text of analyze_clip_for_kickouts (1-analyze_clips.py) (segment C). -/
def clipAnalysisPromptC : String :=
  ".\n\n        GOAL: Detect OFFICIAL GAA KICKOUTS with precise timing and tactical analysis.\n\n        GAA KICKOUT SEQUENCE:\n        1. TRIGGER: Ball goes out of play (wide/over/save)\n        2. SETUP: Players clear goal area and spread across field  \n        3. KICKOUT: Goalkeeper places ball on ground, kicks from stationary position\n        4. CONTEST: Players run toward ball to contest possession\n        5. OUTCOME: Who wins possession and what happens next\n\n        STRICT OFFICIAL KICKOUT CRITERIA (ALL MUST BE PRESENT):\n        ✓ Complete play stoppage after ball goes out of play\n        ✓ Players deliberately CLEAR the goal area (crucial GAA behavior)\n        ✓ ALL outfield players SPREAD across field in anticipation\n        ✓ Goalkeeper places ball on GROUND (never from hands during active play)\n        ✓ Clear PAUSE before kick (not immediate clearance)\n        ✓ Players contest for possession after the kick\n        ✓ STRUCTURED RESTART SEQUENCE visible (not just any goalkeeper kick)\n\n        ABSOLUTELY DO NOT DETECT:\n        - Goalkeeper clearances during active play\n        - Kicks from hands without play stoppage\n        - Quick kicks without proper player positioning\n        - Any kick when players haven\x27t cleared the area\n        - Free kicks or any other restarts\n        - Goalkeeper saves or clearances during ongoing play\n        \n        CRITICAL: If you cannot see the COMPLETE SEQUENCE (ball going out → players clearing → positioning → kick → contest), then it is NOT a kickout. Be extremely conservative - only detect obvious, structured kickout sequences.\n\n        **OUTPUT FORMAT:**\n        KICKOUT: [YES/NO]\n        CONFIDENCE: [1-10]\n        HALF: "

/-- Literal prompt text of analyze_clip_for_kickouts (1-analyze_clips.py) (segment D). -/
def clipAnalysisPromptD : String :=
  "\n        CLIP_TIME: "

/-- Literal prompt text of analyze_clip_for_kickouts (1-analyze_clips.py) (segment E). -/
def clipAnalysisPromptE : String :=
  "\n        \n        IF KICKOUT = YES:\n        TRIGGER_EVENT: [What caused it]\n        EXACT_CONTACT_TIME: [X.X seconds when foot touches ball]\n        KICKING_TEAM: [Team A/Team B based on goalkeeper jersey]\n        PLAYER_POSITIONING: [Did players clear and spread? YES/NO]\n        \n        KICK_ANALYSIS:\n        KICK_DISTANCE: [Short/Medium/Long]\n        KICK_DIRECTION: [Left/Center/Right]\n        KICK_ACCURACY: [On target/Off target/Contested]\n        \n        POSSESSION_OUTCOME:\n        POSSESSION_WON_BY: [Team A/Team B/Contested/Unclear]\n        POSSESSION_LOCATION: [Field position where caught]\n        NEXT_ACTION: [What happened after possession]\n        \n        JERSEY_COLORS:\n        TEAM_A_COLORS: [Describe colors]\n        TEAM_B_COLORS: [Describe colors]\n        GOALKEEPER_JERSEY: [Color of kicking goalkeeper]\n        \n        TACTICAL_CONTEXT: [Full sequence description]\n\n        IF KICKOUT = NO:\n        REASONING: [Why not an official kickout]\n\n        Focus on the structured tactical behavior that defines GAA kickouts.\n        "

/- ## JSON values and the response-extraction step of the synthesizers -/

/-- A JSON value: the shape of what Python's `json.loads` returns. The JSON
parser itself is library code, not part of this repository, so the
synthesizer embeddings take a `loads : String → Option JValue` parameter
(`none` models a raised `JSONDecodeError`). -/
inductive JValue where
  | jnull : JValue
  | jbool : Bool → JValue
  | jnum : Int → JValue
  | jstr : String → JValue
  | jarr : List JValue → JValue
  | jobj : List (String × JValue) → JValue

/-- The opening-brace character, written by code point. -/
def lbrace : Char := Char.ofNat 123

/-- The closing-brace character, written by code point. -/
def rbrace : Char := Char.ofNat 125

/-- `re.search` of a greedy brace-to-brace pattern with DOTALL, as used to
cut the JSON document out of the model response: the match runs from the
first opening brace to the last closing brace after it, or fails. -/
def extractBraces (cs : List Char) : Option (List Char) :=
  match cs.dropWhile (fun c => !(c = lbrace)) with
  | [] => none
  | c :: rest =>
    match rest.reverse.dropWhile (fun c => !(c = rbrace)) with
    | [] => none
    | rr => some (c :: rr.reverse)

/-- Look up a key in a JSON object. -/
def jGet (j : JValue) (k : String) : Option JValue :=
  match j with
  | .jobj fields => fields.lookup k
  | _ => none

/-- The kickouts list of a synthesized Timeline document. -/
def kickoutsOf (j : JValue) : List JValue :=
  match jGet j "kickouts" with
  | some (.jarr xs) => xs
  | _ => []

/-- The confidence field of one Timeline entry. -/
def confidenceOf (e : JValue) : Option Int :=
  match jGet e "confidence" with
  | some (.jnum n) => some n
  | _ => none

/-- The total_kickouts field of a synthesized document, used to observe that
two outputs differ. -/
def totalKickoutsOf (j : JValue) : Option Int :=
  match jGet j "total_kickouts" with
  | some (.jnum n) => some n
  | _ => none

/-- Python `str.upper()` (ASCII data). -/
def pyUpper (s : String) : String := String.mk (s.data.map Char.toUpper)

/-- Whether `needle` occurs as a contiguous substring (Python's `in`). -/
def containsSub (needle : List Char) : List Char → Bool
  | [] => List.isPrefixOf needle []
  | c :: t => List.isPrefixOf needle (c :: t) || containsSub needle t

/- ## synthesize_kickouts_with_ai (2-synthesize_kickouts.py) -/

/-- One entry of the list built by `collect_analysis_results`
(`2-synthesize_kickouts.py`). -/
structure AnalysisRecord where
  file : String
  half : String
  clip_start_time : Nat
  timestamp : String
  clip_file : String
  content : String
deriving DecidableEq, Repr

/-- The analysis-block text interpolated into the synthesis prompt of
`synthesize_kickouts_with_ai`: one header plus content per record, in input
order. -/
def all_analyses (results : List AnalysisRecord) : String :=
  results.foldl (fun acc r =>
    acc ++ "\n--- " ++ pyUpper r.half ++ " - " ++ r.timestamp ++ " (starts at " ++
      Nat.repr r.clip_start_time ++ "s) ---\n" ++ r.content ++ "\n") ""

/-- The full synthesis prompt of `synthesize_kickouts_with_ai`. -/
def kickoutSynthesisPrompt (analysis_results : List AnalysisRecord) : String :=
  kickoutSynthPromptA ++ Nat.repr analysis_results.length ++ kickoutSynthPromptB ++
    all_analyses analysis_results ++ kickoutSynthPromptC

/-- `synthesize_kickouts_with_ai` (`2-synthesize_kickouts.py`). `oracle` is
the external generative model (`none` models a raised exception), `loads` is
Python's `json.loads`. The function builds the prompt, sends it, cuts the
brace-delimited JSON substring out of the response text and parses it; every
failure path returns `none`. The confidence threshold of 7 appears only
inside the prompt text; the returned document is the parsed response,
unfiltered. -/
def synthesize_kickouts_with_ai (analysis_results : List AnalysisRecord)
    (oracle : String → Option String) (loads : String → Option JValue) : Option JValue :=
  match oracle (kickoutSynthesisPrompt analysis_results) with
  | none => none
  | some text =>
    match extractBraces text.data with
    | none => none
    | some jchars => loads (String.mk jchars)

/- ## synthesize_with_ai (synthesize_existing_results.py) -/

/-- The `KICKOUT: YES` filter of `synthesize_with_ai`: keep only records
whose content contains the literal marker. This is the only record filter
performed in code. -/
def kickout_results (analysis_results : List ExistingRec) : List ExistingRec :=
  analysis_results.filter (fun r => containsSub "KICKOUT: YES".data r.content.data)

/-- The analysis-block text of `synthesize_with_ai`, same header format. -/
def existingAnalysesText (results : List ExistingRec) : String :=
  results.foldl (fun acc r =>
    acc ++ "\n--- " ++ pyUpper r.half ++ " - " ++ r.timestamp ++ " (starts at " ++
      Nat.repr r.clip_start_time ++ "s) ---\n" ++ r.content ++ "\n") ""

/-- The full synthesis prompt of `synthesize_with_ai`. -/
def existingSynthesisPrompt (kickouts : List ExistingRec) : String :=
  existingSynthPromptA ++ Nat.repr kickouts.length ++ existingSynthPromptB ++
    existingAnalysesText kickouts ++ existingSynthPromptC ++ Nat.repr kickouts.length ++
    existingSynthPromptD ++ Nat.repr kickouts.length ++ existingSynthPromptE

/-- `synthesize_with_ai` (`synthesize_existing_results.py`): filter the
records to those containing `KICKOUT: YES`; with none left return `None`
without calling the capability; otherwise send the prompt and parse the
brace-delimited JSON of the response. No confidence-based filtering happens
anywhere in the code. -/
def synthesize_with_ai (analysis_results : List ExistingRec)
    (oracle : String → Option String) (loads : String → Option JValue) : Option JValue :=
  match kickout_results analysis_results with
  | [] => none
  | ks =>
    match oracle (existingSynthesisPrompt ks) with
    | none => none
    | some text =>
      match extractBraces text.data with
      | none => none
      | some jchars => loads (String.mk jchars)

/- ## synthesize_halftime_patterns (synthesize_patterns.py) -/

/-- One entry of the list built by `read_all_descriptions`
(`synthesize_patterns.py`). -/
structure Desc where
  timestamp : String
  filename : String
  content : String
deriving DecidableEq, Repr

/-- A repeated single character, for the separator lines. -/
def repChar (c : Char) (n : Nat) : String := String.mk (List.replicate n c)

/-- The compiled clip-description text of `synthesize_halftime_patterns`. -/
def compiledText (ds : List Desc) : String :=
  ds.foldl (fun acc d =>
      acc ++ "TIMESTAMP: " ++ d.timestamp ++ "\n" ++ "FILE: " ++ d.filename ++ "\n" ++
        d.content ++ "\n" ++ repChar '-' 40 ++ "\n\n")
    ("\n" ++ repChar '=' 80 ++ "\n" ++ "GAA MATCH CLIP DESCRIPTIONS - TIMELINE\n" ++
      repChar '=' 80 ++ "\n\n")

/-- The full prompt of `synthesize_halftime_patterns`: constant instructions
— including the ordering and duration constraints, which appear only as text
for the external model — followed by the compiled descriptions. -/
def halftimeSynthesisPrompt (ds : List Desc) : String :=
  halftimePromptA ++ compiledText ds ++ halftimePromptB

/-- `synthesize_halftime_patterns` (`synthesize_patterns.py`): sort the
descriptions by their converted timestamp, build the prompt, call the
external model and return its response text verbatim. The code performs no
validation of the response; `oracle` covers the executions in which the
model call returns (an exception would propagate to the caller). -/
def synthesize_halftime_patterns (descriptions : List Desc)
    (oracle : String → String) : String :=
  oracle (halftimeSynthesisPrompt
    (stableSort (fun d => convert_timestamp_to_seconds d.timestamp) descriptions))

/- ## Spec-side observers for the boundary-resolution format -/

/-- The text after the first occurrence of `needle`, or `none`. -/
def afterSub (needle : List Char) : List Char → Option (List Char)
  | [] => dropPrefixL needle []
  | c :: t =>
    match dropPrefixL needle (c :: t) with
    | some r => some r
    | none => afterSub needle t

/-- Parse `MM:SS` (digits, colon, digits) at the head of the text, as
seconds. -/
def parseMMSS (cs : List Char) : Option Nat :=
  match cs.takeWhile Char.isDigit, cs.dropWhile Char.isDigit with
  | [], _ => none
  | ds1, ':' :: r =>
    match r.takeWhile Char.isDigit with
    | [] => none
    | ds2 => some (natOfDigits ds1 * 60 + natOfDigits ds2)
  | _, _ => none

/-- The `LABEL: MM:SS` field of a resolution text. -/
def fieldTime (marker : String) (t : String) : Option Nat :=
  (afterSub marker.data t.data).bind parseMMSS

/-- Modelled from the spec: the four resolved boundary times of a synthesis
response, read back from the output format the prompt requests
(`FIRST HALF START: MM:SS` and so on). The specification requires every
accepted resolution to satisfy `start1 < end1 < start2 < end2` together with
the configured duration windows. -/
def specResolutionOf (t : String) : Option (Nat × Nat × Nat × Nat) := do
  let s1 ← fieldTime "FIRST HALF START: " t
  let e1 ← fieldTime "FIRST HALF END: " t
  let s2 ← fieldTime "SECOND HALF START: " t
  let e2 ← fieldTime "MATCH END: " t
  return (s1, e1, s2, e2)

/- ## analyze_clip_for_kickouts (1-analyze_clips.py) -/

/-- Outcome of one `generate_content` call: the response text, or a raised
exception with its message. The Boolean records the specification's
transient/permanent taxonomy (timeouts and rate-limit signals are
transient); the code never inspects it. -/
inductive GenOutcome where
  | ok : String → GenOutcome
  | raised : String → Bool → GenOutcome
deriving DecidableEq, Repr

/-- External-capability behaviour for one clip: whether the upload raises
(with what message), how many poll cycles report PROCESSING, whether the
final state is FAILED, and what the model call does with the given prompt.
A finite `processingPolls` restricts attention to terminating executions of
the poll loop. -/
structure ClipBehavior where
  uploadRaises : Option String
  processingPolls : Nat
  stateFailed : Bool
  gen : String → GenOutcome

/-- Observable outcome of one `analyze_clip_for_kickouts` call: how many
upload and inference attempts were made, whether the remote handle was
acquired and whether it was released, and the returned string. -/
structure ClipRun where
  uploadAttempts : Nat
  inferAttempts : Nat
  acquired : Bool
  released : Bool
  result : String
deriving DecidableEq, Repr

/-- The poll loop of `analyze_clip_for_kickouts`: one `get_file` per
PROCESSING state, then the final state; only the final state is observable. -/
def pollLoop : Nat → Bool → Bool
  | 0, failed => failed
  | n + 1, failed => pollLoop n failed

/-- The per-clip prompt of `analyze_clip_for_kickouts`
(`1-analyze_clips.py`). -/
def clipKickoutPrompt (timestamp half_name : String) : String :=
  clipAnalysisPromptA ++ half_name ++ clipAnalysisPromptB ++ timestamp ++
    clipAnalysisPromptC ++ half_name ++ clipAnalysisPromptD ++ timestamp ++ clipAnalysisPromptE

/-- `analyze_clip_for_kickouts` (`1-analyze_clips.py`) as a function of the
external capability's behaviour. Upload is the sole acquisition point.
`delete_file` (the release) is reached only on the path where processing did
not report FAILED and the model call returned; the surrounding try/except
turns every raised exception into an error-string result without reaching
the release. -/
def analyze_clip_for_kickouts (clip_path timestamp half_name : String)
    (b : ClipBehavior) : ClipRun :=
  match b.uploadRaises with
  | some msg => ⟨1, 0, false, false, "❌ Error analyzing " ++ clip_path ++ ": " ++ msg⟩
  | none =>
    if pollLoop b.processingPolls b.stateFailed then
      ⟨1, 0, true, false, "❌ Failed to process " ++ clip_path⟩
    else
      match b.gen (clipKickoutPrompt timestamp half_name) with
      | .raised msg _ => ⟨1, 1, true, false, "❌ Error analyzing " ++ clip_path ++ ": " ++ msg⟩
      | .ok text => ⟨1, 1, true, true, text⟩

/- ## The submission decisions of the two batch drivers -/

/-- Python `Path.stem`: the file name without its final extension. -/
def stemOf (cs : List Char) : List Char :=
  match cs.reverse.dropWhile (fun c => !(c = '.')) with
  | [] => cs
  | _ :: t => t.reverse

/-- Fuel-indexed core of Python `str.replace` for a nonempty needle:
replace non-overlapping occurrences left to right. -/
def replaceGo (needle repl : List Char) : Nat → List Char → List Char
  | _, [] => []
  | 0, cs => cs
  | fuel + 1, c :: t =>
    match dropPrefixL needle (c :: t) with
    | some rest => repl ++ replaceGo needle repl fuel rest
    | none => c :: replaceGo needle repl fuel t

/-- Python `str.replace` for a nonempty needle. -/
def replaceL (needle repl cs : List Char) : List Char :=
  replaceGo needle repl cs.length cs

/-- The timestamp the analysis scripts derive from a clip file stem:
`stem.replace("clip_", "").replace("m", ":").replace("s", "")`. -/
def timestampOfStem (stem : List Char) : String :=
  String.mk (replaceL "s".data "".data
    (replaceL "m".data ":".data (replaceL "clip_".data "".data stem)))

/-- The per-clip submission decision of the main loop of
`1_analyze_clips.py`: a clip is handed to the worker only when no output
file for its stem is already present; the submitted pair carries the
timestamp decoded from the stem, exactly as passed to the worker. -/
def analyze_clips_submissions (existingOutputs : List String)
    (targetClips : List String) : List (String × String) :=
  (targetClips.filter (fun v =>
      !(existingOutputs.contains (String.mk (stemOf v.data) ++ ".txt")))).map
    (fun v => (v, timestampOfStem (stemOf v.data)))

/-- The submission loop of `analyze_half_clips` (`1-analyze_clips.py`):
every discovered clip is submitted. The function takes the set of
already-persisted outputs only so the statement can express that the code
never consults it. -/
def analyze_half_clips_submissions (existingOutputs : List String)
    (videoFiles : List String) : List (String × String) :=
  videoFiles.map (fun v => (v, timestampOfStem (stemOf v.data)))

/- ## Concrete data for the counterexamples and witnesses -/

/-- One analysis record for the synthesis counterexamples. -/
def demoAnalysisResults : List AnalysisRecord :=
  [⟨"clip_00m15s.txt", "first_half", 15, "00:15", "clip_00m15s.mp4",
    "KICKOUT: YES\nCONFIDENCE: 8"⟩]

/-- A first capability response: a JSON document with one total. -/
def demoResponse1 : String := "\x7b\x22total_kickouts\x22: 1\x7d"

/-- A second, different capability response. -/
def demoResponse2 : String := "\x7b\x22total_kickouts\x22: 2\x7d"

/-- `json.loads` restricted to the two demo documents. -/
def demoLoads (s : String) : Option JValue :=
  if s = demoResponse1 then some (JValue.jobj [("total_kickouts", JValue.jnum 1)])
  else if s = demoResponse2 then some (JValue.jobj [("total_kickouts", JValue.jnum 2)])
  else none

/-- Two demo clip descriptions for the boundary-mode counterexample. -/
def demoDescs : List Desc :=
  [⟨"00:15", "clip_00m15s.txt", "Players contest a high ball."⟩,
   ⟨"00:00", "clip_00m00s.txt", "THROW-IN CEREMONY at the center circle."⟩]

/-- A response in the requested output format whose four times violate the
ordering constraint: the first half is resolved to end before it starts. -/
def badResolutionText : String :=
  "ANALYSIS RESULTS:\n\nFIRST HALF START: 50:00\nEvidence: \x22referee throwing ball up\x22\nFile: clip_50m00s.txt\n\nFIRST HALF END: 10:00\nEvidence: \x22players walking off field\x22\nFile: clip_10m00s.txt\n\nSECOND HALF START: 70:00\nEvidence: \x22referee throws ball up\x22\nFile: clip_70m00s.txt\n\nMATCH END: 65:00\nEvidence: \x22final whistle\x22\nFile: clip_65m00s.txt\n"

/-- One persisted record containing a confirmed kickout marker. -/
def demoKickoutRecord : ExistingRec :=
  ⟨"clip_00m15s.txt", "first_half", 15, "00:15", "KICKOUT: YES\nCONFIDENCE: 3"⟩

/-- A model response whose single Timeline entry has confidence 3. -/
def lowConfResponse : String :=
  "\x7b\x22kickouts\x22: [\x7b\x22confidence\x22: 3\x7d]\x7d"

/-- The Timeline entry of `lowConfResponse`. -/
def lowConfEvent : JValue := JValue.jobj [("confidence", JValue.jnum 3)]

/-- The parsed document of `lowConfResponse`. -/
def lowConfJson : JValue := JValue.jobj [("kickouts", JValue.jarr [lowConfEvent])]

/-- `json.loads` restricted to the low-confidence demo document. -/
def lowConfLoads (s : String) : Option JValue :=
  if s = lowConfResponse then some lowConfJson else none

/-- A capability behaviour whose processing ends in the FAILED state. -/
def demoFailedBehavior : ClipBehavior := ⟨none, 2, true, fun _ => .ok "ignored"⟩

/-- A capability behaviour whose model call raises a transient error. -/
def demoTransientBehavior : ClipBehavior :=
  ⟨none, 0, false, fun _ => .raised "Request timed out (rate limited)" true⟩

/-- A capability behaviour whose model call raises a permanent error. -/
def demoPermanentBehavior : ClipBehavior :=
  ⟨none, 0, false, fun _ => .raised "content rejected" false⟩

theorem mem_insSorted {α : Type} (key : α → Int) (x a : α) (l : List α) :
    a ∈ insSorted key x l ↔ a = x ∨ a ∈ l := by
  induction l with
  | nil => simp [insSorted]
  | cons y ys ih =>
    by_cases h : key y < key x <;> simp [insSorted, h, ih] <;> tauto

theorem mem_stableSort {α : Type} (key : α → Int) (a : α) (l : List α) :
    a ∈ stableSort key l ↔ a ∈ l := by
  induction l with
  | nil => simp [stableSort]
  | cons y ys ih =>
    show a ∈ insSorted key y (stableSort key ys) ↔ _
    rw [mem_insSorted, ih]
    simp

theorem digitOf_isDigit : ∀ d < 10, (digitOf d).isDigit = true := by decide

theorem digitVal_digitOf : ∀ d < 10, digitVal (digitOf d) = d := by decide

theorem searchClip_of_parseClipAt {cs : List Char} {v : Nat × Nat}
    (h : parseClipAt cs = some v) : searchClip cs = some v := by
  cases cs with
  | nil => simp [parseClipAt, dropPrefixL] at h
  | cons c t => simp [searchClip, h]

theorem parseClipAt_mkClipName (m s : Nat) (hm : m ≤ 99) (hs : s ≤ 99) :
    parseClipAt (mkClipName m s).data = some (m, s) := by
  have hm1 : m / 10 < 10 := Nat.div_lt_of_lt_mul (by omega)
  have hm2 : m % 10 < 10 := Nat.mod_lt _ (by omega)
  have hs1 : s / 10 < 10 := Nat.div_lt_of_lt_mul (by omega)
  have hs2 : s % 10 < 10 := Nat.mod_lt _ (by omega)
  have dm1 := digitOf_isDigit _ hm1
  have dm2 := digitOf_isDigit _ hm2
  have ds1 := digitOf_isDigit _ hs1
  have ds2 := digitOf_isDigit _ hs2
  have em : natOfDigits [digitOf (m / 10), digitOf (m % 10)] = m := by
    show 10 * (10 * 0 + digitVal (digitOf (m / 10))) + digitVal (digitOf (m % 10)) = m
    rw [digitVal_digitOf _ hm1, digitVal_digitOf _ hm2]
    omega
  have es : natOfDigits [digitOf (s / 10), digitOf (s % 10)] = s := by
    show 10 * (10 * 0 + digitVal (digitOf (s / 10))) + digitVal (digitOf (s % 10)) = s
    rw [digitVal_digitOf _ hs1, digitVal_digitOf _ hs2]
    omega
  show parseClipAt ('c' :: 'l' :: 'i' :: 'p' :: '_' :: digitOf (m / 10) :: digitOf (m % 10) ::
    'm' :: digitOf (s / 10) :: digitOf (s % 10) :: 's' :: '.' :: 't' :: 'x' :: 't' :: []) = _
  simp [parseClipAt, dropPrefixL, List.takeWhile_cons, List.dropWhile_cons, dm1, dm2, ds1, ds2,
    em, es]

/-- C7. For every valid artifact name of the `clip_<MM>m<SS>s` encoding (two
decimal digits for minutes and for seconds), the offset decoded by the
enumeration regex is exactly `minutes*60 + seconds`. -/
theorem clip_name_offset_decodes_exactly (m s : Nat) (hm : m ≤ 99) (hs : s ≤ 99) :
    offsetOfName (mkClipName m s) = some (m * 60 + s) := by
  unfold offsetOfName
  rw [searchClip_of_parseClipAt (parseClipAt_mkClipName m s hm hs)]
  rfl

/-- C7 witness: the theorem applied to the concrete name `clip_15m30s.txt`. -/
theorem clip_name_offset_decodes_exactly_witness :
    offsetOfName (mkClipName 15 30) = some (15 * 60 + 30) :=
  clip_name_offset_decodes_exactly 15 30 (by decide) (by decide)

/-- C8. An artifact whose name does not match the `clip_<MM>m<SS>s` encoding
contributes no record to the enumeration and does not abort the run: the
records collected with the malformed artifact present are exactly the records
collected without it, so all earlier and later artifacts are still processed. -/
theorem malformed_name_skipped_no_record (pre post : List RawFile) (bad : RawFile)
    (h : offsetOfName bad.name = none) :
    collect_all_descriptions (pre ++ bad :: post) = collect_all_descriptions (pre ++ post) := by
  have hb : descOfFile bad = none := by
    unfold offsetOfName at h
    rw [Option.map_eq_none'] at h
    unfold descOfFile
    rw [h]
  simp [collect_all_descriptions, List.filterMap_append, List.filterMap_cons, hb]

/-- C8 witness: the theorem applied to a concrete malformed artifact between
two well-formed ones. -/
theorem malformed_name_skipped_no_record_witness :
    offsetOfName demoBad.name = none ∧
      collect_all_descriptions [demoGoodA, demoBad, demoGoodB] =
        collect_all_descriptions [demoGoodA, demoGoodB] :=
  ⟨by decide, malformed_name_skipped_no_record [demoGoodA] [demoGoodB] demoBad (by decide)⟩

/-- C9. The timestamp-to-seconds conversion used to sort the timeline is
total and never raises: an input that splits on the colon into exactly two
parts both accepted by Python's `int()` yields `minutes*60 + seconds`; every
other input — a part that fails to parse, or any number of parts other than
two — yields 0. -/
theorem convert_timestamp_total_characterization (t : String) :
    (∀ x y m s, pySplit ':' t.data = [x, y] → pythonIntL x = some m → pythonIntL y = some s →
      convert_timestamp_to_seconds t = m * 60 + s) ∧
    (∀ x y, pySplit ':' t.data = [x, y] → (pythonIntL x = none ∨ pythonIntL y = none) →
      convert_timestamp_to_seconds t = 0) ∧
    ((pySplit ':' t.data).length ≠ 2 → convert_timestamp_to_seconds t = 0) := by
  refine ⟨?_, ?_, ?_⟩
  · intro x y m s hxy hm hs
    unfold convert_timestamp_to_seconds
    rw [hxy]
    show (match pythonIntL x, pythonIntL y with
      | some m, some s => m * 60 + s
      | _, _ => 0) = m * 60 + s
    rw [hm, hs]
  · intro x y hxy h
    unfold convert_timestamp_to_seconds
    rw [hxy]
    show (match pythonIntL x, pythonIntL y with
      | some m, some s => m * 60 + s
      | _, _ => 0) = (0 : Int)
    rcases h with h | h
    · rcases hy : pythonIntL y with _ | s <;> rw [h]
    · rcases hx : pythonIntL x with _ | m <;> rw [h]
  · intro h
    unfold convert_timestamp_to_seconds
    rcases hsp : pySplit ':' t.data with _ | ⟨x, _ | ⟨y, _ | ⟨z, rest⟩⟩⟩
    · rfl
    · rfl
    · exact absurd (by rw [hsp]; rfl) h
    · rfl

/-- C9 witness: the theorem applied to the well-formed timestamp `12:34`,
the unparsable timestamp `ab:34`, and the three-part input `1:2:3`. -/
theorem convert_timestamp_total_characterization_witness :
    convert_timestamp_to_seconds "12:34" = 12 * 60 + 34 ∧
      convert_timestamp_to_seconds "ab:34" = 0 ∧
      convert_timestamp_to_seconds "1:2:3" = 0 :=
  ⟨(convert_timestamp_total_characterization "12:34").1 "12".data "34".data 12 34
      (by decide) (by decide) (by decide),
    (convert_timestamp_total_characterization "ab:34").2.1 "ab".data "34".data
      (by decide) (Or.inl (by decide)),
    (convert_timestamp_total_characterization "1:2:3").2.2 (by decide)⟩

/-- C10. In `collect_existing_results`, the half label of every collected
record is derived solely from its decoded clip start offset with the fixed
2100-second (35-minute) cutoff: offsets below 2100 are labelled
`first_half`, all others `second_half`. -/
theorem half_label_fixed_cutoff (files : List RawFile) (r : ExistingRec)
    (hr : r ∈ collect_existing_results files) :
    r.half = if r.clip_start_time < 2100 then "first_half" else "second_half" := by
  rw [collect_existing_results, mem_stableSort] at hr
  rcases List.mem_filterMap.mp hr with ⟨f, _, hf⟩
  unfold existingOfFile at hf
  rcases hsc : searchClip f.name.data with _ | ⟨m, s⟩ <;> rw [hsc] at hf
  · cases hf
  · cases hf
    rfl

/-- C10 witness: the theorem applied to a concrete second-half record. -/
theorem half_label_fixed_cutoff_witness :
    demoExistingRec ∈ collect_existing_results [demoExistingFile] ∧
      demoExistingRec.half =
        if demoExistingRec.clip_start_time < 2100 then "first_half" else "second_half" :=
  ⟨by decide, half_label_fixed_cutoff [demoExistingFile] demoExistingRec (by decide)⟩

/- ## Helper lemmas shared by the claim theorems -/

theorem pollLoop_eq (n : Nat) (f : Bool) : pollLoop n f = f := by
  induction n with
  | zero => rfl
  | succ k ih => exact ih

theorem isPrefixOf_append_right {l h t : List Char} (hh : List.isPrefixOf l h = true) :
    List.isPrefixOf l (h ++ t) = true := by
  rw [List.isPrefixOf_iff_prefix] at *
  exact hh.trans (List.prefix_append h t)

theorem containsSub_of_isPrefixOf {n l : List Char} (hh : List.isPrefixOf n l = true) :
    containsSub n l = true := by
  cases l with
  | nil => exact hh
  | cons c t =>
    show (List.isPrefixOf n (c :: t) || _) = true
    rw [hh]
    rfl

theorem containsSub_append_right {n : List Char} (h : List Char) {t : List Char}
    (hh : containsSub n t = true) : containsSub n (h ++ t) = true := by
  induction h with
  | nil => exact hh
  | cons c h ih =>
    show (_ || containsSub n (h ++ t)) = true
    rw [ih]
    simp

theorem containsSub_append_left {n h : List Char} (t : List Char)
    (hh : containsSub n h = true) : containsSub n (h ++ t) = true := by
  induction h with
  | nil =>
    have hn : n = [] := by
      cases n with
      | nil => rfl
      | cons a l => simp [containsSub, List.isPrefixOf] at hh
    subst hn
    cases t <;> simp [containsSub, List.isPrefixOf]
  | cons c h ih =>
    rw [containsSub] at hh
    rcases Bool.or_eq_true_iff.mp hh with hp | hc
    · show (List.isPrefixOf n (c :: h ++ t) || _) = true
      rw [show c :: h ++ t = (c :: h) ++ t from rfl, isPrefixOf_append_right hp]
      rfl
    · show (_ || containsSub n (h ++ t)) = true
      rw [ih hc]
      simp

/- ## C1: determinism of the synthesis step -/

/-- C1 counterexample: with the record set fixed, two runs of
`synthesize_kickouts_with_ai` in which the external model answers
differently produce different Timelines, so the output is not a function of
the records and thresholds alone — it embeds the nondeterministic model
response verbatim. -/
theorem synthesize_not_input_deterministic_counterexample :
    synthesize_kickouts_with_ai demoAnalysisResults (fun _ => some demoResponse1) demoLoads ≠
      synthesize_kickouts_with_ai demoAnalysisResults (fun _ => some demoResponse2) demoLoads := by
  intro h
  have h2 := congrArg (Option.map totalKickoutsOf) h
  revert h2
  decide

/-- C1 amended: the synthesis step is deterministic only relative to the
external capability: two invocations on the same record list in which the
model and the JSON parser respond identically produce identical Timelines.
Determinism over the records alone fails (see the counterexample). -/
theorem synthesize_deterministic_modulo_capability (analysis_results : List AnalysisRecord)
    (o1 o2 : String → Option String) (l1 l2 : String → Option JValue)
    (ho : ∀ p, o1 p = o2 p) (hl : ∀ t, l1 t = l2 t) :
    synthesize_kickouts_with_ai analysis_results o1 l1 =
      synthesize_kickouts_with_ai analysis_results o2 l2 := by
  unfold synthesize_kickouts_with_ai
  rw [ho]
  cases o2 (kickoutSynthesisPrompt analysis_results) with
  | none => rfl
  | some text =>
    show (match extractBraces text.data with
      | none => none
      | some jchars => l1 (String.mk jchars)) = (match extractBraces text.data with
      | none => none
      | some jchars => l2 (String.mk jchars))
    cases extractBraces text.data with
    | none => rfl
    | some jchars => exact hl _

/-- C1 witness: the amended determinism theorem at a concrete record set and
a concrete capability behaviour. -/
theorem synthesize_deterministic_modulo_capability_witness :
    synthesize_kickouts_with_ai demoAnalysisResults (fun _ => some demoResponse1) demoLoads =
      synthesize_kickouts_with_ai demoAnalysisResults (fun _ => some demoResponse1) demoLoads :=
  synthesize_deterministic_modulo_capability demoAnalysisResults _ _ _ _
    (fun _ => rfl) (fun _ => rfl)

/- ## C2: boundary-mode ordering constraints -/

/-- C2 counterexample: a capability response that resolves the four boundary
categories with `start1 > end1` — violating the strict ordering the claim
says every accepted resolution satisfies — is emitted by
`synthesize_halftime_patterns` verbatim instead of being rejected or
reported unresolved: the resolved start of the first half (3000 s) is after
its resolved end (600 s). -/
theorem boundary_ordering_not_enforced_counterexample :
    specResolutionOf (synthesize_halftime_patterns demoDescs (fun _ => badResolutionText)) =
        some (3000, 600, 4200, 3900) ∧
      ¬(3000 < 600) := by
  constructor
  · decide
  · decide

/-- C2 amended: the ordering and duration constraints are only instructions
inside the prompt handed to the external model — the constraint text always
occurs in the built prompt — and the synthesizer returns the model's
response verbatim for every possible response, so no candidate selection is
ever rejected in code and no category is ever reported unresolved by the
synthesizer itself. -/
theorem boundary_constraints_prompt_only (descriptions : List Desc)
    (oracle : String → String) :
    containsSub "First half must start before it ends".data
        (halftimeSynthesisPrompt (stableSort
          (fun d => convert_timestamp_to_seconds d.timestamp) descriptions)).data = true ∧
      synthesize_halftime_patterns descriptions oracle =
        oracle (halftimeSynthesisPrompt (stableSort
          (fun d => convert_timestamp_to_seconds d.timestamp) descriptions)) := by
  constructor
  · show containsSub _
      (((halftimePromptA1 ++ halftimePromptA2) ++ compiledText _) ++ halftimePromptB).data = true
    rw [String.data_append, String.data_append, String.data_append]
    exact containsSub_append_left _ (containsSub_append_left _
      (containsSub_append_right _ (containsSub_of_isPrefixOf (by decide))))
  · rfl

/-- C2 witness: the amended theorem at the concrete demo descriptions and a
constant capability response. -/
theorem boundary_constraints_prompt_only_witness :
    synthesize_halftime_patterns demoDescs (fun _ => badResolutionText) =
      badResolutionText :=
  (boundary_constraints_prompt_only demoDescs (fun _ => badResolutionText)).2

/- ## C3: the confidence threshold -/

/-- C3 counterexample: a run of `synthesize_with_ai` in which the model
response carries a Timeline entry of confidence 3 emits that entry: the
output document contains an event below the threshold of 7, because the
code never filters by confidence. -/
theorem confidence_filter_counterexample :
    synthesize_with_ai [demoKickoutRecord] (fun _ => some lowConfResponse) lowConfLoads =
        some lowConfJson ∧
      lowConfEvent ∈ kickoutsOf lowConfJson ∧
      confidenceOf lowConfEvent = some 3 ∧
      ¬(7 ≤ (3 : Int)) := by
  refine ⟨rfl, ?_, rfl, by decide⟩
  show lowConfEvent ∈ [lowConfEvent]
  exact List.mem_singleton.mpr rfl

/-- C3 amended: no confidence filtering happens in code. The only
code-level record filter of `synthesize_with_ai` is the `KICKOUT: YES`
substring filter on the input records, and whenever synthesis returns a
document it is exactly the parsed model response, whatever confidence its
entries carry (the threshold of 7 is only prompt text). -/
theorem confidence_threshold_only_in_prompt (analysis_results : List ExistingRec) :
    (∀ r ∈ kickout_results analysis_results,
        containsSub "KICKOUT: YES".data r.content.data = true) ∧
      (∀ oracle loads j, synthesize_with_ai analysis_results oracle loads = some j →
        ∃ text, oracle (existingSynthesisPrompt (kickout_results analysis_results)) =
            some text ∧
          (extractBraces text.data).bind (fun cs => loads (String.mk cs)) = some j) := by
  constructor
  · intro r hr
    exact (List.mem_filter.mp hr).2
  · intro oracle loads j h
    unfold synthesize_with_ai at h
    rcases hk : kickout_results analysis_results with _ | ⟨k, ks⟩
    · simp [hk] at h
    · simp only [hk] at h
      rcases ho : oracle (existingSynthesisPrompt (k :: ks)) with _ | text
      · simp [ho] at h
      · simp only [ho] at h
        refine ⟨text, rfl, ?_⟩
        rcases hb : extractBraces text.data with _ | jchars
        · simp [hb] at h
        · simp only [hb] at h
          simpa using h

/-- C3 witness: the amended theorem at a concrete record set and capability
behaviour with a confirmed kickout record. -/
theorem confidence_threshold_only_in_prompt_witness :
    containsSub "KICKOUT: YES".data demoKickoutRecord.content.data = true ∧
      ∃ text, (fun _ => some lowConfResponse :
            String → Option String) (existingSynthesisPrompt
            (kickout_results [demoKickoutRecord])) = some text ∧
        (extractBraces text.data).bind (fun cs => lowConfLoads (String.mk cs)) =
          some lowConfJson :=
  ⟨(confidence_threshold_only_in_prompt [demoKickoutRecord]).1 demoKickoutRecord (by decide),
    (confidence_threshold_only_in_prompt [demoKickoutRecord]).2
      (fun _ => some lowConfResponse) lowConfLoads lowConfJson rfl⟩

/- ## C4: release of the remote handle -/

/-- C4 counterexample: a run in which the capability reports the FAILED
processing state acquires the remote handle but returns without releasing
it — the release is not performed on every exit path. -/
theorem release_not_on_all_paths_counterexample :
    (analyze_clip_for_kickouts "clip_00m15s.mp4" "00:15" "first_half"
        demoFailedBehavior).acquired = true ∧
      (analyze_clip_for_kickouts "clip_00m15s.mp4" "00:15" "first_half"
        demoFailedBehavior).released = false :=
  ⟨rfl, rfl⟩

/-- C4 amended: the remote handle is released only on the full success path:
the release happens exactly when the upload returned, processing did not end
FAILED, and the model call returned a response. On the capability-reported
failure path and on every raised exception after the upload, the handle is
acquired but not released. -/
theorem release_only_on_success_path (clip_path timestamp half_name : String)
    (b : ClipBehavior) :
    (analyze_clip_for_kickouts clip_path timestamp half_name b).released = true ↔
      (b.uploadRaises = none ∧ b.stateFailed = false ∧
        ∃ text, b.gen (clipKickoutPrompt timestamp half_name) = GenOutcome.ok text) := by
  obtain ⟨ur, polls, sf, gen⟩ := b
  rcases ur with _ | msg
  · rcases sf
    · rcases hg : gen (clipKickoutPrompt timestamp half_name) with text | ⟨msg, tr⟩
      · simp [analyze_clip_for_kickouts, pollLoop_eq, hg]
      · simp [analyze_clip_for_kickouts, pollLoop_eq, hg]
    · simp [analyze_clip_for_kickouts, pollLoop_eq]
  · simp [analyze_clip_for_kickouts]

/- ## C5: idempotent resumption -/

/-- C5 counterexample: with the persisted output for the clip already
present, `analyze_half_clips` of `1-analyze_clips.py` still submits the
clip — the worker pool of that driver never consults the store, so a re-run
performs one external call per clip rather than zero. -/
theorem resume_skip_missing_counterexample :
    (["clip_00m15s.txt"].contains
        (String.mk (stemOf "clip_00m15s.mp4".data) ++ ".txt")) = true ∧
      analyze_half_clips_submissions ["clip_00m15s.txt"] ["clip_00m15s.mp4"] =
        [("clip_00m15s.mp4", "00:15")] ∧
      analyze_half_clips_submissions ["clip_00m15s.txt"] ["clip_00m15s.mp4"] ≠ [] := by
  refine ⟨by decide, by decide, by decide⟩

/-- C5 amended: only the driver of `1_analyze_clips.py` resumes
idempotently: its loop submits no clip whose output file already exists, so
a store holding results for every clip yields zero submissions; the driver
of `1-analyze_clips.py` submits every discovered clip regardless of the
store. -/
theorem resume_skips_only_in_skip_variant :
    (∀ existingOutputs targetClips,
        (∀ v ∈ targetClips, String.mk (stemOf v.data) ++ ".txt" ∈ existingOutputs) →
        analyze_clips_submissions existingOutputs targetClips = []) ∧
      (∀ existingOutputs targetClips v ts,
        (v, ts) ∈ analyze_clips_submissions existingOutputs targetClips →
        String.mk (stemOf v.data) ++ ".txt" ∉ existingOutputs) ∧
      (∀ existingOutputs videoFiles,
        (analyze_half_clips_submissions existingOutputs videoFiles).length =
          videoFiles.length) := by
  refine ⟨?_, ?_, ?_⟩
  · intro existingOutputs targetClips hall
    unfold analyze_clips_submissions
    rw [List.filter_eq_nil_iff.mpr, List.map_nil]
    intro v hv
    simp [hall v hv]
  · intro existingOutputs targetClips v ts hmem
    unfold analyze_clips_submissions at hmem
    rcases List.mem_map.mp hmem with ⟨w, hw, hwe⟩
    cases hwe
    have := (List.mem_filter.mp hw).2
    simpa using this
  · intro existingOutputs videoFiles
    unfold analyze_half_clips_submissions
    rw [List.length_map]

/-- C5 witness: the amended theorem at a concrete one-clip batch whose
output already exists. -/
theorem resume_skips_only_in_skip_variant_witness :
    analyze_clips_submissions ["clip_00m15s.txt"] ["clip_00m15s.mp4"] = [] :=
  resume_skips_only_in_skip_variant.1 ["clip_00m15s.txt"] ["clip_00m15s.mp4"] (by decide)

/- ## C6: retry policy -/

/-- C6 counterexample: a transient failure of the inference capability (a
timeout and rate-limit signal) is not retried: the run makes exactly one
inference attempt and records the failure string immediately. -/
theorem transient_not_retried_counterexample :
    demoTransientBehavior.gen (clipKickoutPrompt "00:15" "first_half") =
        GenOutcome.raised "Request timed out (rate limited)" true ∧
      (analyze_clip_for_kickouts "clip_00m15s.mp4" "00:15" "first_half"
          demoTransientBehavior).inferAttempts = 1 ∧
      (analyze_clip_for_kickouts "clip_00m15s.mp4" "00:15" "first_half"
          demoTransientBehavior).result =
        "❌ Error analyzing " ++ "clip_00m15s.mp4" ++ ": " ++
          "Request timed out (rate limited)" ∧
      ¬(2 ≤ 1) :=
  ⟨rfl, rfl, rfl, by decide⟩

/-- C6 amended: no retry exists at all: every call makes exactly one upload
attempt and at most one inference attempt, and a raised inference error —
transient or permanent alike, the code never distinguishes them — is
recorded as a failure string immediately after the single attempt, with no
backoff. -/
theorem no_retry_single_attempt (clip_path timestamp half_name : String)
    (b : ClipBehavior) :
    (analyze_clip_for_kickouts clip_path timestamp half_name b).uploadAttempts = 1 ∧
      (analyze_clip_for_kickouts clip_path timestamp half_name b).inferAttempts ≤ 1 ∧
      (∀ msg transient, b.uploadRaises = none → b.stateFailed = false →
        b.gen (clipKickoutPrompt timestamp half_name) = GenOutcome.raised msg transient →
        analyze_clip_for_kickouts clip_path timestamp half_name b =
          ⟨1, 1, true, false, "❌ Error analyzing " ++ clip_path ++ ": " ++ msg⟩) := by
  obtain ⟨ur, polls, sf, gen⟩ := b
  refine ⟨?_, ?_, ?_⟩
  · rcases ur with _ | msg
    · rcases sf
      · rcases hg : gen (clipKickoutPrompt timestamp half_name) with text | ⟨msg, tr⟩ <;>
          simp [analyze_clip_for_kickouts, pollLoop_eq, hg]
      · simp [analyze_clip_for_kickouts, pollLoop_eq]
    · rfl
  · rcases ur with _ | msg
    · rcases sf
      · rcases hg : gen (clipKickoutPrompt timestamp half_name) with text | ⟨msg, tr⟩ <;>
          simp [analyze_clip_for_kickouts, pollLoop_eq, hg]
      · simp [analyze_clip_for_kickouts, pollLoop_eq]
    · simp [analyze_clip_for_kickouts]
  · intro msg transient hu hf hg
    simp only at hu hf hg
    subst hu hf
    simp [analyze_clip_for_kickouts, pollLoop_eq, hg]

/-- C6 witness: the amended theorem applied to a concrete permanent-error
behaviour, which is recorded FAILED after a single attempt exactly like a
transient one. -/
theorem no_retry_single_attempt_witness :
    analyze_clip_for_kickouts "clip_00m30s.mp4" "00:30" "first_half" demoPermanentBehavior =
      ⟨1, 1, true, false, "❌ Error analyzing " ++ "clip_00m30s.mp4" ++ ": " ++
        "content rejected"⟩ :=
  (no_retry_single_attempt "clip_00m30s.mp4" "00:30" "first_half"
    demoPermanentBehavior).2.2 "content rejected" false rfl rfl rfl
